import Mathlib

/-!
Verification of the AirTraffic attribution and aggregation engine.

This file gives a shallow embedding of the core of the repository:

* `get_network_stats_core` models the delta/rate attribution step of
  `NetworkMonitor.get_network_stats` (src/monitor.py, lines 104-135):
  given the previous snapshot (`self.last_stats`), the current counters,
  the tallied per-application connection counts and the requested
  interval, it produces the per-application stats dictionary.
* `get_network_stats` models the whole method, including the
  try/except structure around the OS queries.
* `NetworkDatabase` together with `record_stats`, `get_stats_since`
  and `cleanup_old_data` models src/database.py.
* `get_pid` models `AirTrafficDaemon.get_pid` (src/daemon.py) and
  `daemon_start_run` models the collector loop of
  `AirTrafficDaemon.start`.

Python floats are modelled by `Rat`, Python ints by `Int` (or `Nat`
where the source value is a count), datetimes by `Int` timestamps.
-/

/-- One reading of the cumulative OS network counters, as stored in
`self.last_stats` / `current_stats` in `get_network_stats`. -/
structure Snapshot where
  bytes_sent : Int
  bytes_recv : Int
  time : Rat
deriving DecidableEq, Repr

/-- One value of the per-application stats dictionary
(`{"sent": ..., "recv": ..., "connections": ...}`). `sent`/`recv` are
Python floats (rates) or ints (deltas); both embed into `Rat`. -/
structure AppStat where
  sent : Rat
  recv : Rat
  connections : Nat
deriving DecidableEq, Repr

/-- `app_stats["System"]["sent"] = sent_delta` on the defaultdict:
update the `"System"` entry if present, otherwise create it with the
defaultdict default (`connections = 0`). -/
def setSystemStat (l : List (String × AppStat)) (sent recv : Rat) :
    List (String × AppStat) :=
  if l.any (fun p => p.1 = "System") then
    l.map (fun p =>
      if p.1 = "System" then (p.1, AppStat.mk sent recv p.2.connections) else p)
  else l ++ [(("System"), AppStat.mk sent recv 0)]

/-- The attribution step of `NetworkMonitor.get_network_stats`
(src/monitor.py lines 104-135), after the connection tally has produced
`conns` (pairs of app name and connection count).  Mirrors the source:
with a previous snapshot and `interval > 0` and `time_delta > 0`, the
per-second rates and the raw deltas are computed; if the total
connection count is positive every app with connections gets
`rate * share`, otherwise the `"System"` bucket gets the raw delta. -/
def get_network_stats_core (last_stats : Option Snapshot) (curr : Snapshot)
    (conns : List (String × Nat)) (interval : Rat) :
    List (String × AppStat) :=
  let app_stats : List (String × AppStat) :=
    conns.map (fun p => (p.1, AppStat.mk 0 0 p.2))
  match last_stats with
  | none => app_stats
  | some prev =>
    if 0 < interval then
      let time_delta : Rat := curr.time - prev.time
      if 0 < time_delta then
        let sent_rate : Rat :=
          ((curr.bytes_sent - prev.bytes_sent : Int) : Rat) / time_delta
        let recv_rate : Rat :=
          ((curr.bytes_recv - prev.bytes_recv : Int) : Rat) / time_delta
        let sent_delta : Int := curr.bytes_sent - prev.bytes_sent
        let recv_delta : Int := curr.bytes_recv - prev.bytes_recv
        let total_connections : Nat :=
          (app_stats.map (fun p => p.2.connections)).sum
        if 0 < total_connections then
          app_stats.map (fun p =>
            if 0 < p.2.connections then
              (p.1, AppStat.mk
                (sent_rate * ((p.2.connections : Rat) / (total_connections : Rat)))
                (recv_rate * ((p.2.connections : Rat) / (total_connections : Rat)))
                p.2.connections)
            else p)
        else
          setSystemStat app_stats (sent_delta : Rat) (recv_delta : Rat)
      else app_stats
    else app_stats

/-- Claim C1: with `prev = (0 sent, 0 recv, t=0)`, `curr = (100 sent,
200 recv, t=2)` and a single app `"A"` holding the only connection, the
code attributes `sent = 50` (the per-second rate `100 / 2`), so the sum
of attributed `sent` bytes is `50`, while the clamped system-wide delta
is `100`: the attributed total is the rate, not the delta, refuting the
claim at this input. -/
theorem C1_rate_not_delta :
    ((get_network_stats_core (some (Snapshot.mk 0 0 0)) (Snapshot.mk 100 200 2)
        [(("A"), 1)] 60).map (fun p => p.2.sent)).sum = 50 ∧
    max ((100 : Int) - 0) 0 = 100 ∧ (50 : Rat) ≠ 100 := by
  refine ⟨?_, by norm_num, by norm_num⟩
  norm_num [get_network_stats_core, setSystemStat]

/-- Claim C3: with a counter reset (`prev.bytes_sent = 100`,
`curr.bytes_sent = 40`, elapsed time 1) and one app `"A"` holding the
only connection, the code attributes `sent = -60` to `"A"`; with no
connections it assigns `-60` to `"System"`.  The negative delta is not
clamped to zero, refuting the claim at this input. -/
theorem C3_negative_not_clamped :
    (get_network_stats_core (some (Snapshot.mk 100 0 0)) (Snapshot.mk 40 0 1)
        [(("A"), 1)] 1).lookup ("A") = some (AppStat.mk (-60) 0 1) ∧
    (get_network_stats_core (some (Snapshot.mk 100 0 0)) (Snapshot.mk 40 0 1)
        [] 1).lookup ("System") = some (AppStat.mk (-60) 0 0) ∧
    (-60 : Rat) < 0 := by
  refine ⟨?_, ?_, by norm_num⟩
  · norm_num [get_network_stats_core, setSystemStat, List.lookup]
  · norm_num [get_network_stats_core, setSystemStat, List.lookup]

/-- Claim C5: for every snapshot pair with positive elapsed time and an
empty connection tally, the result is exactly the `"System"` bucket
carrying the whole byte delta; hence no other app name carries nonzero
sent or recv bytes. -/
theorem C5_system_fallback (prev curr : Snapshot) (interval : Rat)
    (hint : 0 < interval) (helapsed : prev.time < curr.time) :
    get_network_stats_core (some prev) curr [] interval =
      [(("System"), AppStat.mk
        ((curr.bytes_sent - prev.bytes_sent : Int) : Rat)
        ((curr.bytes_recv - prev.bytes_recv : Int) : Rat) 0)] ∧
    ∀ p ∈ get_network_stats_core (some prev) curr [] interval,
      p.1 ≠ "System" → p.2.sent = 0 ∧ p.2.recv = 0 := by
  have hd : (0 : Rat) < curr.time - prev.time := sub_pos.mpr helapsed
  have h : get_network_stats_core (some prev) curr [] interval =
      [(("System"), AppStat.mk
        ((curr.bytes_sent - prev.bytes_sent : Int) : Rat)
        ((curr.bytes_recv - prev.bytes_recv : Int) : Rat) 0)] := by
    simp [get_network_stats_core, setSystemStat, hint, hd]
  refine ⟨h, ?_⟩
  intro p hp hne
  rw [h, List.mem_singleton] at hp
  exact absurd (by rw [hp]) hne

/-- Witness for C5 at a concrete input: `prev = (0,0,t=0)`,
`curr = (5,7,t=1)`, interval 1. -/
theorem C5_system_fallback_witness :
    (0 : Rat) < 1 ∧ (Snapshot.mk 0 0 0).time < (Snapshot.mk 5 7 1).time ∧
    (get_network_stats_core (some (Snapshot.mk 0 0 0)) (Snapshot.mk 5 7 1) [] 1 =
      [(("System"), AppStat.mk 5 7 0)] ∧
    ∀ p ∈ get_network_stats_core (some (Snapshot.mk 0 0 0)) (Snapshot.mk 5 7 1) [] 1,
      p.1 ≠ "System" → p.2.sent = 0 ∧ p.2.recv = 0) := by
  have h := C5_system_fallback (Snapshot.mk 0 0 0) (Snapshot.mk 5 7 1) 1
    (by norm_num) (by show (0 : Rat) < 1; norm_num)
  refine ⟨by norm_num, by show (0 : Rat) < 1; norm_num, ?_, h.2⟩
  rw [h.1]
  norm_num

/-! ## Time-series store (src/database.py) -/

/-- One row of the `network_stats` table. -/
structure NetworkStatsRow where
  id : Nat
  timestamp : Int
  app_name : String
  bytes_sent : Int
  bytes_recv : Int
  connections : Nat
deriving DecidableEq, Repr

/-- The observable state of a `NetworkDatabase`: the `_read_only` flag
chosen in `__init__` from the path/privilege policy, the stored rows,
and the autoincrement counter. -/
structure NetworkDatabase where
  read_only : Bool
  rows : List NetworkStatsRow
  next_id : Nat
deriving DecidableEq, Repr

/-- Python `int()` on a float/rational: truncation toward zero, as used
by `record_stats` on the `sent`/`recv` values. -/
def pyInt (q : Rat) : Int :=
  if 0 ≤ q then q.floor else q.ceil

/-- `NetworkDatabase.record_stats` (src/database.py lines 130-159): if
the store is read-only or the stats map is empty it returns at once
(silent no-op); otherwise it inserts one row per app.  The `Except`
result models the possibility of a propagated exception: this function
has no raise path. -/
def NetworkDatabase.record_stats (db : NetworkDatabase) (timestamp : Int)
    (stats : List (String × AppStat)) : Except String NetworkDatabase :=
  if db.read_only || stats.isEmpty then Except.ok db
  else Except.ok (stats.foldl (fun d p =>
    NetworkDatabase.mk d.read_only
      (d.rows ++ [NetworkStatsRow.mk d.next_id timestamp p.1
        (pyInt p.2.sent) (pyInt p.2.recv) p.2.connections])
      (d.next_id + 1)) db)

/-- Rows matched by the SQL clause `WHERE timestamp >= ?`. -/
def rowsSince (db : NetworkDatabase) (start_time : Int) :
    List NetworkStatsRow :=
  db.rows.filter (fun r => start_time ≤ r.timestamp)

/-- One aggregated result row of `get_stats_since`. -/
structure AggStat where
  sent : Int
  recv : Int
  connections : Nat
deriving DecidableEq, Repr

/-- `SUM(bytes_sent), SUM(bytes_recv), MAX(connections)` over the rows
of one `GROUP BY app_name` group. -/
def aggFor (rs : List NetworkStatsRow) (a : String) : AggStat :=
  let ars := rs.filter (fun r => r.app_name = a)
  AggStat.mk ((ars.map NetworkStatsRow.bytes_sent).sum)
    ((ars.map NetworkStatsRow.bytes_recv).sum)
    ((ars.map NetworkStatsRow.connections).foldl max 0)

/-- `NetworkDatabase.get_stats_since` (src/database.py lines 161-196):
group the rows with `timestamp >= start_time` by app name and aggregate
each group.  The SQL `ORDER BY` only affects presentation order and is
not modelled. -/
def NetworkDatabase.get_stats_since (db : NetworkDatabase)
    (start_time : Int) : List (String × AggStat) :=
  let rs := rowsSince db start_time
  ((rs.map NetworkStatsRow.app_name).dedup).map (fun a => (a, aggFor rs a))

/-- `NetworkDatabase.cleanup_old_data` (src/database.py lines 216-236):
`DELETE FROM network_stats WHERE timestamp < ?` with the cutoff
`now - days` (days expressed in seconds). -/
def NetworkDatabase.cleanup_old_data (db : NetworkDatabase) (now : Int)
    (days : Nat) : NetworkDatabase :=
  if db.read_only then db
  else
    NetworkDatabase.mk db.read_only
      (db.rows.filter (fun r => ¬ r.timestamp < now - (days : Int) * 86400))
      db.next_id

lemma lookup_map_pair {β : Type} (f : String → β) (names : List String)
    (a : String) :
    (names.map (fun x => (x, f x))).lookup a =
      if a ∈ names then some (f a) else none := by
  induction names with
  | nil => simp
  | cons x xs ih =>
    by_cases hx : a = x
    · subst hx
      simp [List.lookup]
    · have hb : (a == x) = false := beq_eq_false_iff_ne.mpr hx
      simp [List.lookup, hb, hx, ih]

lemma filter_rowsSince (db : NetworkDatabase) (start : Int) (a : String) :
    (rowsSince db start).filter (fun r => r.app_name = a) =
      db.rows.filter (fun r => start ≤ r.timestamp ∧ r.app_name = a) := by
  rw [rowsSince, List.filter_filter]
  congr 1
  funext r
  by_cases h1 : start ≤ r.timestamp <;> by_cases h2 : r.app_name = a <;>
    simp [h1, h2]

lemma mem_keys_get_stats_since (db : NetworkDatabase) (s : Int)
    (a : String) :
    a ∈ (db.get_stats_since s).map Prod.fst ↔
      ∃ r ∈ rowsSince db s, r.app_name = a := by
  simp [NetworkDatabase.get_stats_since, List.map_map, Function.comp,
    List.mem_dedup, List.mem_map]

lemma aggFor_rowsSince (db : NetworkDatabase) (start : Int) (a : String) :
    aggFor (rowsSince db start) a = AggStat.mk
      (((db.rows.filter
          (fun r => start ≤ r.timestamp ∧ r.app_name = a)).map
        NetworkStatsRow.bytes_sent).sum)
      (((db.rows.filter
          (fun r => start ≤ r.timestamp ∧ r.app_name = a)).map
        NetworkStatsRow.bytes_recv).sum)
      (((db.rows.filter
          (fun r => start ≤ r.timestamp ∧ r.app_name = a)).map
        NetworkStatsRow.connections).foldl max 0) := by
  simp only [aggFor, filter_rowsSince]

lemma mem_appnames_rowsSince (db : NetworkDatabase) (start : Int)
    (a : String) :
    a ∈ (rowsSince db start).map NetworkStatsRow.app_name ↔
      ∃ r ∈ db.rows, start ≤ r.timestamp ∧ r.app_name = a := by
  simp [rowsSince, List.mem_map, List.mem_filter, and_assoc]

/-- Claim C2 (amended): `record_stats` on a store opened read-only is a
silent no-op: it returns without any error and leaves the stored rows
(and the whole database state) unchanged, for every stats map. -/
theorem C2_readonly_silent_noop (db : NetworkDatabase) (timestamp : Int)
    (stats : List (String × AppStat)) (h : db.read_only = true) :
    db.record_stats timestamp stats = Except.ok db := by
  simp [NetworkDatabase.record_stats, h]

/-- Witness for the amended C2 at a concrete read-only store and a
nonempty stats map. -/
theorem C2_readonly_silent_noop_witness :
    (NetworkDatabase.mk true [] 0).read_only = true ∧
    (NetworkDatabase.mk true [] 0).record_stats 5
        [(("Chrome"), AppStat.mk 1000 2000 3)] =
      Except.ok (NetworkDatabase.mk true [] 0) :=
  ⟨rfl, C2_readonly_silent_noop (NetworkDatabase.mk true [] 0) 5
    [(("Chrome"), AppStat.mk 1000 2000 3)] rfl⟩

/-- Counterexample to claim C2 as stated: on a read-only store, calling
`record_stats` with a nonempty stats map does not propagate any
write/I-O error — it succeeds (returns normally) and silently drops the
data, leaving the row set unchanged. -/
theorem C2_counterexample :
    [(("Chrome"), AppStat.mk 1000 2000 3)] ≠ ([] : List (String × AppStat)) ∧
    (NetworkDatabase.mk true [] 0).record_stats 5
        [(("Chrome"), AppStat.mk 1000 2000 3)] =
      Except.ok (NetworkDatabase.mk true [] 0) ∧
    ∀ e, (NetworkDatabase.mk true [] 0).record_stats 5
        [(("Chrome"), AppStat.mk 1000 2000 3)] ≠ Except.error e := by
  refine ⟨by simp, by simp [NetworkDatabase.record_stats], ?_⟩
  intro e
  simp [NetworkDatabase.record_stats]

/-- Claim C6: `get_stats_since` returns an entry for `a` exactly when
some stored row for `a` has `timestamp >= start`, and that entry is the
sum of `bytes_sent`, the sum of `bytes_recv` and the maximum recorded
connection count over exactly those rows. -/
theorem C6_round_trip (db : NetworkDatabase) (start : Int) (a : String)
    (agg : AggStat) :
    (db.get_stats_since start).lookup a = some agg ↔
      ((∃ r ∈ db.rows, start ≤ r.timestamp ∧ r.app_name = a) ∧
        agg = AggStat.mk
          (((db.rows.filter
              (fun r => start ≤ r.timestamp ∧ r.app_name = a)).map
            NetworkStatsRow.bytes_sent).sum)
          (((db.rows.filter
              (fun r => start ≤ r.timestamp ∧ r.app_name = a)).map
            NetworkStatsRow.bytes_recv).sum)
          (((db.rows.filter
              (fun r => start ≤ r.timestamp ∧ r.app_name = a)).map
            NetworkStatsRow.connections).foldl max 0)) := by
  have hlk : (db.get_stats_since start).lookup a =
      if a ∈ ((rowsSince db start).map NetworkStatsRow.app_name).dedup
      then some (aggFor (rowsSince db start) a) else none := by
    simp only [NetworkDatabase.get_stats_since]
    exact lookup_map_pair (fun x => aggFor (rowsSince db start) x)
      (((rowsSince db start).map NetworkStatsRow.app_name).dedup) a
  rw [hlk]
  by_cases hmem : a ∈ ((rowsSince db start).map NetworkStatsRow.app_name).dedup
  · rw [if_pos hmem]
    have hex : ∃ r ∈ db.rows, start ≤ r.timestamp ∧ r.app_name = a :=
      (mem_appnames_rowsSince db start a).mp (List.mem_dedup.mp hmem)
    simp only [Option.some.injEq]
    constructor
    · intro he
      exact ⟨hex, by rw [← he, aggFor_rowsSince]⟩
    · intro hc
      rw [aggFor_rowsSince, hc.2]
  · rw [if_neg hmem]
    constructor
    · intro he
      exact absurd he (by simp)
    · intro hc
      exact absurd (List.mem_dedup.mpr
        ((mem_appnames_rowsSince db start a).mpr hc.1)) hmem

/-- Witness for C6: recording one entry for `"Chrome"` with
`sent = 1000`, `recv = 2000`, 3 connections at time 100 into an empty
writable store, then querying since time 99, yields exactly
`{Chrome: {sent: 1000, recv: 2000, connections: 3}}`. -/
theorem C6_round_trip_witness :
    (NetworkDatabase.mk false [] 0).record_stats 100
        [(("Chrome"), AppStat.mk 1000 2000 3)] =
      Except.ok (NetworkDatabase.mk false
        [NetworkStatsRow.mk 0 100 ("Chrome") 1000 2000 3] 1) ∧
    ((NetworkDatabase.mk false
        [NetworkStatsRow.mk 0 100 ("Chrome") 1000 2000 3] 1).get_stats_since
        99).lookup ("Chrome") = some (AggStat.mk 1000 2000 3) := by
  constructor
  · norm_num [NetworkDatabase.record_stats, pyInt, Rat.floor, Rat.ceil]
  · exact (C6_round_trip
      (NetworkDatabase.mk false
        [NetworkStatsRow.mk 0 100 ("Chrome") 1000 2000 3] 1)
      99 ("Chrome") (AggStat.mk 1000 2000 3)).mpr
      ⟨⟨NetworkStatsRow.mk 0 100 ("Chrome") 1000 2000 3, by simp,
        by norm_num, rfl⟩, by decide⟩

/-- Claim C7: on a writable store, `cleanup_old_data` keeps exactly the
rows with `timestamp >= now - retention` (so a row exactly at the
boundary is retained), and any row contributing to a later
`get_stats_since` query survives the cutoff — a deleted row never
contributes again. -/
theorem C7_retention (db : NetworkDatabase) (now : Int) (days : Nat)
    (h : db.read_only = false) :
    (∀ r, r ∈ (db.cleanup_old_data now days).rows ↔
        (r ∈ db.rows ∧ now - (days : Int) * 86400 ≤ r.timestamp)) ∧
    (∀ r ∈ db.rows, r.timestamp = now - (days : Int) * 86400 →
        r ∈ (db.cleanup_old_data now days).rows) ∧
    (∀ start r, r ∈ rowsSince (db.cleanup_old_data now days) start →
        ¬ r.timestamp < now - (days : Int) * 86400) := by
  have h1 : ∀ r, r ∈ (db.cleanup_old_data now days).rows ↔
      (r ∈ db.rows ∧ now - (days : Int) * 86400 ≤ r.timestamp) := by
    intro r
    simp [NetworkDatabase.cleanup_old_data, h, List.mem_filter, not_lt]
  refine ⟨h1, ?_, ?_⟩
  · intro r hr ht
    exact (h1 r).mpr ⟨hr, le_of_eq ht.symm⟩
  · intro start r hr
    rw [rowsSince] at hr
    have hmem : r ∈ (db.cleanup_old_data now days).rows :=
      List.mem_of_mem_filter hr
    exact not_lt.mpr ((h1 r).mp hmem).2

/-- A small store used only to instantiate the retention and
monotonicity theorems: one row strictly older than the 1-day cutoff
(at `now = 0`), one exactly at it, one newer. -/
def retentionDb : NetworkDatabase :=
  NetworkDatabase.mk false
    [NetworkStatsRow.mk 0 (-86401) ("A") 1 1 1,
     NetworkStatsRow.mk 1 (-86400) ("B") 2 2 2,
     NetworkStatsRow.mk 2 0 ("C") 3 3 3] 3

/-- Witness for C7: on `retentionDb` with `now = 0` and a 1-day
retention, the boundary row `"B"` is retained and the strictly older
row `"A"` is not. -/
theorem C7_retention_witness :
    retentionDb.read_only = false ∧
    (NetworkStatsRow.mk 1 (-86400) ("B") 2 2 2 ∈
        (retentionDb.cleanup_old_data 0 1).rows ↔
      (NetworkStatsRow.mk 1 (-86400) ("B") 2 2 2 ∈ retentionDb.rows ∧
        (0 : Int) - (1 : Int) * 86400 ≤
          (NetworkStatsRow.mk 1 (-86400) ("B") 2 2 2).timestamp)) ∧
    (NetworkStatsRow.mk 0 (-86401) ("A") 1 1 1 ∈
        (retentionDb.cleanup_old_data 0 1).rows ↔
      (NetworkStatsRow.mk 0 (-86401) ("A") 1 1 1 ∈ retentionDb.rows ∧
        (0 : Int) - (1 : Int) * 86400 ≤
          (NetworkStatsRow.mk 0 (-86401) ("A") 1 1 1).timestamp)) :=
  ⟨rfl, (C7_retention retentionDb 0 1 rfl).1 _, (C7_retention retentionDb 0 1 rfl).1 _⟩

/-- Claim C9: widening the query range start can only add or preserve
contributing rows: with `s1 ≤ s2`, every row matched by
`query_since(s2)` is matched by `query_since(s1)`, and every app
present in the aggregate for `s2` is present in the aggregate for
`s1`. -/
theorem C9_query_monotone (db : NetworkDatabase) (s1 s2 : Int)
    (h : s1 ≤ s2) :
    (∀ r, r ∈ rowsSince db s2 → r ∈ rowsSince db s1) ∧
    (∀ a, a ∈ (db.get_stats_since s2).map Prod.fst →
        a ∈ (db.get_stats_since s1).map Prod.fst) := by
  have hrow : ∀ r, r ∈ rowsSince db s2 → r ∈ rowsSince db s1 := by
    intro r hr
    rw [rowsSince, List.mem_filter] at hr ⊢
    refine ⟨hr.1, ?_⟩
    have h2 : s2 ≤ r.timestamp := by simpa using hr.2
    simpa using le_trans h h2
  refine ⟨hrow, ?_⟩
  intro a ha
  rw [mem_keys_get_stats_since] at ha ⊢
  obtain ⟨r, hr, hname⟩ := ha
  exact ⟨r, hrow r hr, hname⟩

/-- Witness for C9 on `retentionDb` with `s1 = -86401 ≤ s2 = -1`. -/
theorem C9_query_monotone_witness :
    (-86401 : Int) ≤ -1 ∧
    (∀ r, r ∈ rowsSince retentionDb (-1) → r ∈ rowsSince retentionDb (-86401)) ∧
    (∀ a, a ∈ (retentionDb.get_stats_since (-1)).map Prod.fst →
        a ∈ (retentionDb.get_stats_since (-86401)).map Prod.fst) :=
  ⟨by norm_num,
    (C9_query_monotone retentionDb (-86401) (-1) (by norm_num)).1,
    (C9_query_monotone retentionDb (-86401) (-1) (by norm_num)).2⟩

/-! ## Collector supervisor (src/daemon.py) -/

/-- The state of one PID marker file as `get_pid` can encounter it:
absent, unreadable/unparsable (open or `int()` raises), or holding a
PID. -/
inductive PidFile where
  | absent
  | unreadable
  | content (pid : Nat)
deriving DecidableEq, Repr

/-- `AirTrafficDaemon.get_pid` (src/daemon.py lines 106-133), Unix
path: walk the candidate marker files in order; an unreadable or
unparsable marker is removed and skipped; a marker whose PID passes the
`os.kill(pid, 0)` liveness probe (`killOk`) is returned; a marker whose
probe raises is removed and skipped; if no candidate is live the result
is `none`.  Returns the result together with the final state of the
candidate files. -/
def get_pid (killOk : Nat → Bool) :
    List PidFile → Option Nat × List PidFile
  | [] => (none, [])
  | PidFile.absent :: rest =>
    let r := get_pid killOk rest
    (r.1, PidFile.absent :: r.2)
  | PidFile.unreadable :: rest =>
    let r := get_pid killOk rest
    (r.1, PidFile.absent :: r.2)
  | PidFile.content pid :: rest =>
    if killOk pid then (some pid, PidFile.content pid :: rest)
    else
      let r := get_pid killOk rest
      (r.1, PidFile.absent :: r.2)

/-- Claim C8: when every existing PID marker references a PID whose
liveness probe fails (no live process), `get_pid` reports not-running
(`none`) and every marker file has been removed (all candidates end up
absent). -/
theorem C8_stale_pid_reclaim (killOk : Nat → Bool) (files : List PidFile)
    (h : ∀ pid, PidFile.content pid ∈ files → killOk pid = false) :
    (get_pid killOk files).1 = none ∧
    ∀ q ∈ (get_pid killOk files).2, q = PidFile.absent := by
  induction files with
  | nil => simp [get_pid]
  | cons f rest ih =>
    have hrest : ∀ pid, PidFile.content pid ∈ rest → killOk pid = false :=
      fun pid hm => h pid (List.mem_cons_of_mem f hm)
    have ihr := ih hrest
    cases f with
    | absent =>
      refine ⟨ihr.1, ?_⟩
      intro q hq
      rcases List.mem_cons.mp hq with hq | hq
      · exact hq
      · exact ihr.2 q hq
    | unreadable =>
      refine ⟨ihr.1, ?_⟩
      intro q hq
      rcases List.mem_cons.mp hq with hq | hq
      · exact hq
      · exact ihr.2 q hq
    | content pid =>
      have hk : killOk pid = false := h pid (List.mem_cons_self _ _)
      rw [get_pid, hk]
      refine ⟨ihr.1, ?_⟩
      intro q hq
      rcases List.mem_cons.mp hq with hq | hq
      · exact hq
      · exact ihr.2 q hq

/-- Witness for C8: one stale marker holding PID 42 with no live
process: `get_pid` returns `none` and the marker is removed. -/
theorem C8_stale_pid_reclaim_witness :
    (∀ pid, PidFile.content pid ∈ [PidFile.content 42] →
      (fun _ => false) pid = false) ∧
    (get_pid (fun _ => false) [PidFile.content 42]).1 = none ∧
    ∀ q ∈ (get_pid (fun _ => false) [PidFile.content 42]).2,
      q = PidFile.absent :=
  ⟨fun _ _ => rfl,
    (C8_stale_pid_reclaim (fun _ => false) [PidFile.content 42]
      (fun _ _ => rfl)).1,
    (C8_stale_pid_reclaim (fun _ => false) [PidFile.content 42]
      (fun _ _ => rfl)).2⟩

/-- Outcome of one iteration body of the collector loop in
`AirTrafficDaemon.start`: the tick completed (with the stats it
collected and possibly recorded), or some exception was raised inside
the tick (during collection, the database write, or the sleep). -/
inductive TickResult where
  | ok (stats : List (String × AppStat))
  | err
deriving DecidableEq, Repr

/-- The `while self.running` loop of `AirTrafficDaemon.start`
(src/daemon.py lines 152-163), driven by the list of tick outcomes the
environment produces until the running flag is cleared: returns how
many loop iterations were entered and whether an exception escaped the
loop.  An exhausted list models the shutdown signal clearing
`self.running`; an erring tick makes the `while` statement itself
terminate by exception. -/
def daemon_loop : List TickResult → Nat × Bool
  | [] => (0, false)
  | TickResult.ok _ :: rest =>
    let r := daemon_loop rest
    (r.1 + 1, r.2)
  | TickResult.err :: _ => (1, true)

/-- Observable outcome of `AirTrafficDaemon.start` after the
`try/except/finally` around the loop: iterations entered, whether the
`except Exception` handler reported an error, and whether the
`finally` block removed the PID marker (it always runs). -/
structure DaemonOutcome where
  ticks_run : Nat
  error_reported : Bool
  pid_removed : Bool
deriving DecidableEq, Repr

/-- `AirTrafficDaemon.start`, steady state (src/daemon.py lines
152-168): run the loop inside `try`; the `except Exception` clause
reports any escaping error; the `finally` clause removes the PID
marker unconditionally. -/
def daemon_start_run (ticks : List TickResult) : DaemonOutcome :=
  let r := daemon_loop ticks
  DaemonOutcome.mk r.1 r.2 true

lemma daemon_loop_append_err (pre rest : List TickResult)
    (h : ∀ t ∈ pre, t ≠ TickResult.err) :
    daemon_loop (pre ++ TickResult.err :: rest) = (pre.length + 1, true) := by
  induction pre with
  | nil => rfl
  | cons t pre ih =>
    cases t with
    | err => exact absurd rfl (h TickResult.err (List.mem_cons_self _ _))
    | ok s =>
      have hpre : ∀ t ∈ pre, t ≠ TickResult.err :=
        fun t hm => h t (List.mem_cons_of_mem _ hm)
      simp [daemon_loop, ih hpre, List.length_cons]

/-- Counterexample to claim C4 as stated: with an erring first tick and
a second tick pending, only one loop iteration runs — the loop does not
continue to the next tick after the exception. -/
theorem C4_counterexample :
    daemon_start_run [TickResult.err, TickResult.ok []] =
      DaemonOutcome.mk 1 true true ∧
    (daemon_start_run [TickResult.err, TickResult.ok []]).ticks_run ≠ 2 := by
  exact ⟨rfl, by simp [daemon_start_run, daemon_loop]⟩

/-- Claim C4 (amended): an exception inside one sampling tick
terminates the collector loop — no later tick runs; the exception is
caught by the handler outside the loop (the error is reported rather
than propagated to the caller) and the unconditional cleanup removes
the PID marker. -/
theorem C4_tick_error_stops_loop (pre rest : List TickResult)
    (h : ∀ t ∈ pre, t ≠ TickResult.err) :
    daemon_start_run (pre ++ TickResult.err :: rest) =
      DaemonOutcome.mk (pre.length + 1) true true := by
  simp [daemon_start_run, daemon_loop_append_err pre rest h]

/-- Witness for the amended C4: one good tick, then an erring tick with
one more tick pending: exactly two iterations run, the error is
reported, the PID marker is removed. -/
theorem C4_tick_error_stops_loop_witness :
    (∀ t ∈ [TickResult.ok []], t ≠ TickResult.err) ∧
    daemon_start_run ([TickResult.ok []] ++ TickResult.err :: [TickResult.ok []]) =
      DaemonOutcome.mk 2 true true := by
  refine ⟨by simp, ?_⟩
  exact C4_tick_error_stops_loop [TickResult.ok []] [TickResult.ok []] (by simp)

/-! ## The full sampling method with its exception handling -/

/-- Outcome of `psutil.net_connections(kind='inet')` as seen by the
inner `try` of `get_network_stats`: a list of connections (each with an
optional owning PID), an `AccessDenied` (handled by substituting the
empty list), or any other exception (propagates to the outer `try`). -/
inductive ConnResult where
  | ok (pids : List (Option Nat))
  | accessDenied
  | raised
deriving DecidableEq, Repr

/-- One successfully visited process in the `psutil.process_iter` loop:
its PID and the app name `_get_app_name` resolved (that helper never
raises — it returns `"Unknown"` on a vanished/inaccessible process). -/
structure ProcEntry where
  pid : Nat
  name : String
deriving DecidableEq, Repr

/-- Outcome of iterating `psutil.process_iter`: the visited processes
(`none` = the per-process `except ... continue` skipped one), or an
exception from the iteration itself. -/
inductive ProcIterResult where
  | ok (procs : List (Option ProcEntry))
  | raised
deriving DecidableEq, Repr

/-- The outcomes of the OS queries issued by one call of
`NetworkMonitor.get_network_stats`. -/
structure OSEnv where
  net_connections : ConnResult
  process_iter : ProcIterResult
  net_io_counters : Option (Int × Int)
  current_time : Rat

/-- `connection_pids[conn.pid] += 1` for one connection (Python's
`if conn.pid:` also skips PID 0). -/
def bump (l : List (Nat × Nat)) (pid : Nat) : List (Nat × Nat) :=
  match l with
  | [] => [(pid, 1)]
  | (p, c) :: rest =>
    if p = pid then (p, c + 1) :: rest else (p, c) :: bump rest pid

/-- The `connection_pids` tally of `get_network_stats`. -/
def connection_pids (pids : List (Option Nat)) : List (Nat × Nat) :=
  pids.foldl (fun acc o =>
    match o with
    | some pid => if pid = 0 then acc else bump acc pid
    | none => acc) []

/-- `app_stats[app_name]["connections"] += connection_pids[pid]` on the
defaultdict. -/
def addConns (l : List (String × Nat)) (name : String) (c : Nat) :
    List (String × Nat) :=
  match l with
  | [] => [(name, c)]
  | (n, k) :: rest =>
    if n = name then (n, k + c) :: rest else (n, k) :: addConns rest name c

/-- The process loop of `get_network_stats`: count connections per app
for every visited process whose PID appears in the connection tally. -/
def tallyApps (cp : List (Nat × Nat)) (procs : List (Option ProcEntry)) :
    List (String × Nat) :=
  procs.foldl (fun acc op =>
    match op with
    | none => acc
    | some e =>
      match cp.lookup e.pid with
      | some c => addConns acc e.name c
      | none => acc) []

/-- The connections list after the inner `try`: `AccessDenied` becomes
the empty list. -/
def connList : ConnResult → List (Option Nat)
  | ConnResult.ok l => l
  | _ => []

/-- The body of `NetworkMonitor.get_network_stats` (src/monitor.py
lines 73-135) without the outer handler: an `error` result carries the
dictionary and state as they stand at the raise point. -/
def get_network_stats_body (env : OSEnv) (last_stats : Option Snapshot)
    (interval : Rat) :
    Except (List (String × AppStat) × Option Snapshot)
      (List (String × AppStat) × Option Snapshot) :=
  match env.net_connections with
  | ConnResult.raised => Except.error ([], last_stats)
  | c =>
    match env.process_iter with
    | ProcIterResult.raised => Except.error ([], last_stats)
    | ProcIterResult.ok procs =>
      let conns := tallyApps (connection_pids (connList c)) procs
      match env.net_io_counters with
      | none =>
        Except.error (conns.map (fun p => (p.1, AppStat.mk 0 0 p.2)), last_stats)
      | some io =>
        let curr := Snapshot.mk io.1 io.2 env.current_time
        Except.ok (get_network_stats_core last_stats curr conns interval,
          some curr)

/-- `NetworkMonitor.get_network_stats` (src/monitor.py lines 62-141):
the body wrapped in `try: ... except Exception: pass`, after which the
accumulated dictionary is returned either way. -/
def get_network_stats (env : OSEnv) (last_stats : Option Snapshot)
    (interval : Rat) :
    Except Unit (List (String × AppStat) × Option Snapshot) :=
  match get_network_stats_body env last_stats interval with
  | Except.ok r => Except.ok r
  | Except.error r => Except.ok r

/-- Claim C10: `get_network_stats` never propagates an exception: for
every outcome of the underlying OS queries — including a raising
connection enumeration, a raising process iteration and raising counter
reads, all of which make `get_network_stats_body` raise — the call
returns a dictionary (with the monitor state), never an error. -/
theorem C10_never_raises (env : OSEnv) (last_stats : Option Snapshot)
    (interval : Rat) :
    ∃ out, get_network_stats env last_stats interval = Except.ok out := by
  rw [get_network_stats]
  cases h : get_network_stats_body env last_stats interval with
  | ok r => exact ⟨r, rfl⟩
  | error r => exact ⟨r, rfl⟩
